import Mathlib

/-!
Verification of the access-restriction evaluator of the moodle client
library: the `Restriction` / `RestrictionC` data model and the
`Restriction.IsRestricted` method, shallowly embedded from the Go source.

The Go method switches on the operator string `r.OP` and, in each branch,
runs nested loops over the rule's conditions `r.C` and the learner's
groups, comparing `c.Id == g.Id` with early return.  A Go `switch` on
strings is a sequential equality chain, embedded here as nested `if`;
the early-returning loops are embedded as `List.any`.
-/

/-- One group a course defines (Go struct `CourseGroup`: fields `Id`,
`Name`, `Description`). -/
structure CourseGroup where
  Id : Int
  Name : String
  Description : String
deriving Repr, DecidableEq

/-- One condition of a restriction rule (Go struct `RestrictionC`).
The Go field `Type` is named `Typ` here because `Type` is reserved in
Lean; `Id` is the group identifier, `D` and `T` the date-condition
operator and timestamp. -/
structure RestrictionC where
  Typ : String
  Id : Int
  D : String
  T : Int
deriving Repr, DecidableEq

/-- A restriction rule (Go struct `Restriction`): operator string `OP`,
conditions `C`, and the visibility fields `Show` and `ShowC`. -/
structure Restriction where
  OP : String
  C : List RestrictionC
  Show : Bool
  ShowC : List Bool
deriving Repr, DecidableEq

/-- Shallow embedding of the Go method `Restriction.IsRestricted`.
Each branch mirrors the source loops: in every case the inner loop sets
`found` when `c.Id == g.Id` for some learner group `g`; `List.any`
captures the loop with early return.  The `&` branch returns true as
soon as some condition's `Id` is found in no group; the `!&` branch
returns true as soon as some condition's `Id` is found in a group; the
`|` branch returns false as soon as some condition's `Id` is found in a
group, and true after the loops; the `!|` branch returns true as soon as
some condition's `Id` is found in a group; an unrecognized operator
falls through to `false`. -/
def Restriction.IsRestricted (r : Restriction) (groups : List CourseGroup) : Bool :=
  if r.OP = "&" then
    r.C.any (fun c => !(groups.any (fun g => c.Id == g.Id)))
  else if r.OP = "!&" then
    r.C.any (fun c => groups.any (fun g => c.Id == g.Id))
  else if r.OP = "|" then
    !(r.C.any (fun c => groups.any (fun g => c.Id == g.Id)))
  else if r.OP = "!|" then
    r.C.any (fun c => groups.any (fun g => c.Id == g.Id))
  else
    false

/-- The inner loop of every branch: some learner group carries the
condition's `Id`. -/
theorem any_group_match_iff (c : RestrictionC) (G : List CourseGroup) :
    (G.any (fun g => c.Id == g.Id) = true) ↔ c.Id ∈ G.map CourseGroup.Id := by
  simp [List.any_eq_true, List.mem_map]
  constructor
  · rintro ⟨g, hg, he⟩
    exact ⟨g, hg, he.symm⟩
  · rintro ⟨g, hg, he⟩
    exact ⟨g, hg, he.symm⟩

/-- The existential loop shape shared by the `!&` and `!|` branches. -/
theorem any_match_iff (C : List RestrictionC) (G : List CourseGroup) :
    (C.any (fun c => G.any (fun g => c.Id == g.Id)) = true) ↔
      ∃ c ∈ C, c.Id ∈ G.map CourseGroup.Id := by
  rw [List.any_eq_true]
  constructor
  · rintro ⟨c, hc, h⟩
    exact ⟨c, hc, (any_group_match_iff c G).mp h⟩
  · rintro ⟨c, hc, h⟩
    exact ⟨c, hc, (any_group_match_iff c G).mpr h⟩

/-- The loop shape of the `&` branch: some condition whose `Id` no
learner group carries. -/
theorem any_nomatch_iff (C : List RestrictionC) (G : List CourseGroup) :
    (C.any (fun c => !(G.any (fun g => c.Id == g.Id))) = true) ↔
      ∃ c ∈ C, c.Id ∉ G.map CourseGroup.Id := by
  rw [List.any_eq_true]
  constructor
  · rintro ⟨c, hc, h⟩
    rw [Bool.not_eq_true'] at h
    refine ⟨c, hc, fun hm => ?_⟩
    rw [(any_group_match_iff c G).mpr hm] at h
    exact absurd h (by simp)
  · rintro ⟨c, hc, h⟩
    refine ⟨c, hc, ?_⟩
    rw [Bool.not_eq_true']
    cases hb : G.any (fun g => c.Id == g.Id) with
    | false => rfl
    | true => exact absurd ((any_group_match_iff c G).mp hb) h

/-- The verdict of `IsRestricted` only reads the operator, the
conditions' `Id` fields and the learner groups' `Id` fields. -/
theorem isRestricted_congr_ids (op : String) (C C' : List RestrictionC)
    (s s' : Bool) (sc sc' : List Bool) (G G' : List CourseGroup)
    (hC : ∀ i : Int, i ∈ C.map RestrictionC.Id ↔ i ∈ C'.map RestrictionC.Id)
    (hG : ∀ i : Int, i ∈ G.map CourseGroup.Id ↔ i ∈ G'.map CourseGroup.Id) :
    Restriction.IsRestricted ⟨op, C, s, sc⟩ G =
      Restriction.IsRestricted ⟨op, C', s', sc'⟩ G' := by
  have hex : (C.any (fun c => G.any (fun g => c.Id == g.Id))) =
      (C'.any (fun c => G'.any (fun g => c.Id == g.Id))) := by
    rw [Bool.eq_iff_iff, any_match_iff, any_match_iff]
    constructor
    · rintro ⟨c, hc, h⟩
      obtain ⟨c', hc', he⟩ := by
        simpa [List.mem_map] using (hC c.Id).mp (List.mem_map_of_mem RestrictionC.Id hc)
      exact ⟨c', hc', by rw [he]; exact (hG c.Id).mp h⟩
    · rintro ⟨c, hc, h⟩
      obtain ⟨c', hc', he⟩ := by
        simpa [List.mem_map] using (hC c.Id).mpr (List.mem_map_of_mem RestrictionC.Id hc)
      exact ⟨c', hc', by rw [he]; exact (hG c.Id).mpr h⟩
  have hno : (C.any (fun c => !(G.any (fun g => c.Id == g.Id)))) =
      (C'.any (fun c => !(G'.any (fun g => c.Id == g.Id)))) := by
    rw [Bool.eq_iff_iff, any_nomatch_iff, any_nomatch_iff]
    constructor
    · rintro ⟨c, hc, h⟩
      obtain ⟨c', hc', he⟩ := by
        simpa [List.mem_map] using (hC c.Id).mp (List.mem_map_of_mem RestrictionC.Id hc)
      exact ⟨c', hc', by rw [he]; exact fun hm => h ((hG c.Id).mpr hm)⟩
    · rintro ⟨c, hc, h⟩
      obtain ⟨c', hc', he⟩ := by
        simpa [List.mem_map] using (hC c.Id).mpr (List.mem_map_of_mem RestrictionC.Id hc)
      exact ⟨c', hc', by rw [he]; exact fun hm => h ((hG c.Id).mp hm)⟩
  unfold Restriction.IsRestricted
  simp only
  split
  · exact hno
  · split
    · exact hex
    · split
      · rw [hex]
      · split
        · exact hex
        · rfl

/-- Intersection commuted: some condition's `Id` is a learner group id iff
some learner group's id is a condition `Id`. -/
theorem exists_match_comm (C : List RestrictionC) (G : List CourseGroup) :
    (∃ c ∈ C, c.Id ∈ G.map CourseGroup.Id) ↔ ∃ g ∈ G, g.Id ∈ C.map RestrictionC.Id := by
  constructor
  · rintro ⟨c, hc, hm⟩
    obtain ⟨g, hg, he⟩ := List.mem_map.mp hm
    exact ⟨g, hg, List.mem_map.mpr ⟨c, hc, he.symm⟩⟩
  · rintro ⟨g, hg, hm⟩
    obtain ⟨c, hc, he⟩ := List.mem_map.mp hm
    exact ⟨c, hc, List.mem_map.mpr ⟨g, hg, he.symm⟩⟩

/-- Claim C3: for every rule with operator "&" whose conditions all have kind
"group", IsRestricted is true iff the learner's groups do not form a superset
of the conditions' group ids (some condition's id is not among the learner's
group ids). -/
theorem and_restricted_iff_not_superset (C : List RestrictionC) (s : Bool)
    (sc : List Bool) (groups : List CourseGroup) (hk : ∀ c ∈ C, c.Typ = "group") :
    Restriction.IsRestricted ⟨"&", C, s, sc⟩ groups = true ↔
      ¬ (∀ c ∈ C, c.Id ∈ groups.map CourseGroup.Id) := by
  have hb : Restriction.IsRestricted ⟨"&", C, s, sc⟩ groups
      = C.any (fun c => !(groups.any (fun g => c.Id == g.Id))) := by
    simp [Restriction.IsRestricted]
  rw [hb, any_nomatch_iff]
  push_neg
  exact Iff.rfl

/-- Claim C3 witness: a sole group condition with id 1 and a learner with no
groups — restricted, and the superset fails. -/
theorem and_restricted_iff_not_superset_witness :
    Restriction.IsRestricted ⟨"&", [⟨"group", 1, "", 0⟩], false, []⟩ [] = true ↔
      ¬ (∀ c ∈ [(⟨"group", 1, "", 0⟩ : RestrictionC)],
          c.Id ∈ ([] : List CourseGroup).map CourseGroup.Id) :=
  and_restricted_iff_not_superset [⟨"group", 1, "", 0⟩] false [] [] (by decide)

/-- Claim C4: for group-kind conditions, an OR rule restricts iff the learner's
groups do not intersect the conditions' group ids, and a NOT-OR rule restricts
iff they do intersect. -/
theorem or_notOr_restricted_iff (C : List RestrictionC) (s : Bool) (sc : List Bool)
    (groups : List CourseGroup) (hk : ∀ c ∈ C, c.Typ = "group") :
    (Restriction.IsRestricted ⟨"|", C, s, sc⟩ groups = true ↔
      ¬ ∃ g ∈ groups, g.Id ∈ C.map RestrictionC.Id) ∧
    (Restriction.IsRestricted ⟨"!|", C, s, sc⟩ groups = true ↔
      ∃ g ∈ groups, g.Id ∈ C.map RestrictionC.Id) := by
  have h1 : Restriction.IsRestricted ⟨"|", C, s, sc⟩ groups
      = !(C.any (fun c => groups.any (fun g => c.Id == g.Id))) := by
    simp [Restriction.IsRestricted]
  have h2 : Restriction.IsRestricted ⟨"!|", C, s, sc⟩ groups
      = C.any (fun c => groups.any (fun g => c.Id == g.Id)) := by
    simp [Restriction.IsRestricted]
  constructor
  · rw [h1, Bool.not_eq_true', Bool.eq_false_iff, Ne, any_match_iff]
    exact not_congr (exists_match_comm C groups)
  · rw [h2, any_match_iff]
    exact exists_match_comm C groups

/-- Claim C4 witness: one group condition with id 3, learner only in group 4 —
the OR rule restricts and the NOT-OR rule does not. -/
theorem or_notOr_restricted_iff_witness :
    (Restriction.IsRestricted ⟨"|", [⟨"group", 3, "", 0⟩], false, []⟩ [⟨4, "", ""⟩] = true ↔
      ¬ ∃ g ∈ [(⟨4, "", ""⟩ : CourseGroup)],
          g.Id ∈ ([⟨"group", 3, "", 0⟩] : List RestrictionC).map RestrictionC.Id) ∧
    (Restriction.IsRestricted ⟨"!|", [⟨"group", 3, "", 0⟩], false, []⟩ [⟨4, "", ""⟩] = true ↔
      ∃ g ∈ [(⟨4, "", ""⟩ : CourseGroup)],
          g.Id ∈ ([⟨"group", 3, "", 0⟩] : List RestrictionC).map RestrictionC.Id) :=
  or_notOr_restricted_iff [⟨"group", 3, "", 0⟩] false [] [⟨4, "", ""⟩] (by decide)

/-- Claim C5: with an empty conditions list the verdict is: "&" not restricted,
"!&" not restricted, "|" restricted, "!|" not restricted, for every
learner-group list and visibility fields. -/
theorem empty_conditions_verdicts (s : Bool) (sc : List Bool)
    (groups : List CourseGroup) :
    Restriction.IsRestricted ⟨"&", [], s, sc⟩ groups = false ∧
    Restriction.IsRestricted ⟨"!&", [], s, sc⟩ groups = false ∧
    Restriction.IsRestricted ⟨"|", [], s, sc⟩ groups = true ∧
    Restriction.IsRestricted ⟨"!|", [], s, sc⟩ groups = false := by
  refine ⟨?_, ?_, ?_, ?_⟩ <;> simp [Restriction.IsRestricted]

/-- Claim C6: an operator string other than the four known codes yields false
(fail open) for every rule body and learner-group list; the evaluator is a
total function and raises no error. -/
theorem unknown_operator_fail_open (r : Restriction) (groups : List CourseGroup)
    (h1 : r.OP ≠ "&") (h2 : r.OP ≠ "!&") (h3 : r.OP ≠ "|") (h4 : r.OP ≠ "!|") :
    r.IsRestricted groups = false := by
  unfold Restriction.IsRestricted
  rw [if_neg h1, if_neg h2, if_neg h3, if_neg h4]

/-- Claim C6 witness: the operator "?" with a condition and a matching learner
group still yields false. -/
theorem unknown_operator_fail_open_witness :
    Restriction.IsRestricted ⟨"?", [⟨"group", 1, "", 0⟩], true, [true]⟩
      [⟨1, "", ""⟩] = false :=
  unknown_operator_fail_open ⟨"?", [⟨"group", 1, "", 0⟩], true, [true]⟩ [⟨1, "", ""⟩]
    (by decide) (by decide) (by decide) (by decide)

/-- Claim C1 (failing input): a "!&" rule over the group conditions with ids 1
and 2, evaluated for a learner whose only group is 1, reports restricted —
although the learner's groups are not a superset of the conditions' ids, so
under the claim the rule would not restrict.  The branch returns restricted as
soon as any one condition matches. -/
theorem notAnd_failing_input_eval :
    Restriction.IsRestricted
      ⟨"!&", [⟨"group", 1, "", 0⟩, ⟨"group", 2, "", 0⟩], false, []⟩
      [⟨1, "", ""⟩] = true := by decide

/-- Claim C2 (counterexample): a condition of kind "date" is matched by the
evaluator.  Adding the date condition with id 10 to an empty "!|" rule flips
the verdict from not restricted to restricted for a learner in group 10; a
never-matching condition could not create a match under "!|". -/
theorem date_condition_matches_counterexample :
    Restriction.IsRestricted ⟨"!|", [⟨"date", 10, "", 0⟩], false, []⟩
        [⟨10, "", ""⟩] = true ∧
      Restriction.IsRestricted ⟨"!|", [], false, []⟩ [⟨10, "", ""⟩] = false := by
  exact ⟨by decide, by decide⟩

/-- Claim C2 (amended): evaluation does not consider condition kinds at all;
matching compares only the condition's `Id` with the learner's group ids, so
replacing the conditions by any list with the same `Id`s — in particular
changing kinds between "group", "date" or anything else — leaves the verdict
unchanged for every operator and learner-group list. -/
theorem verdict_ignores_condition_kind (op : String) (C C' : List RestrictionC)
    (s : Bool) (sc : List Bool) (groups : List CourseGroup)
    (h : C.map RestrictionC.Id = C'.map RestrictionC.Id) :
    Restriction.IsRestricted ⟨op, C, s, sc⟩ groups =
      Restriction.IsRestricted ⟨op, C', s, sc⟩ groups :=
  isRestricted_congr_ids op C C' s s sc sc groups groups
    (fun i => by rw [h]) (fun i => Iff.rfl)

/-- Claim C2 amended witness: turning a "group" condition into a "date"
condition with the same id leaves the "!|" verdict unchanged. -/
theorem verdict_ignores_condition_kind_witness :
    Restriction.IsRestricted ⟨"!|", [⟨"group", 7, "", 0⟩], true, [true]⟩
        [⟨7, "", ""⟩] =
      Restriction.IsRestricted ⟨"!|", [⟨"date", 7, ">=", 99⟩], true, [true]⟩
        [⟨7, "", ""⟩] :=
  verdict_ignores_condition_kind "!|" [⟨"group", 7, "", 0⟩] [⟨"date", 7, ">=", 99⟩]
    true [true] [⟨7, "", ""⟩] (by decide)

/-- Claim C7: IsRestricted is deterministic: evaluating equal rule values on
equal learner-group lists yields equal verdicts; the embedding is a pure
function of its two inputs (the Go method only reads its receiver and
arguments), so there is no hidden state and nothing is mutated. -/
theorem isRestricted_deterministic (r r' : Restriction)
    (groups groups' : List CourseGroup) (h1 : r = r') (h2 : groups = groups') :
    r.IsRestricted groups = r'.IsRestricted groups' := by
  rw [h1, h2]

/-- Claim C7 witness: two evaluations at the same concrete rule and groups. -/
theorem isRestricted_deterministic_witness :
    Restriction.IsRestricted ⟨"&", [⟨"group", 1, "", 0⟩], false, []⟩ [⟨1, "", ""⟩] =
      Restriction.IsRestricted ⟨"&", [⟨"group", 1, "", 0⟩], false, []⟩ [⟨1, "", ""⟩] :=
  isRestricted_deterministic ⟨"&", [⟨"group", 1, "", 0⟩], false, []⟩
    ⟨"&", [⟨"group", 1, "", 0⟩], false, []⟩ [⟨1, "", ""⟩] [⟨1, "", ""⟩] rfl rfl

/-- Claim C8: duplicates are inert: appending a copy of a condition already in
the rule leaves the verdict unchanged, and so does appending a copy of a group
the learner already has. -/
theorem duplicates_inert (r : Restriction) (groups : List CourseGroup)
    (c : RestrictionC) (g : CourseGroup) (hc : c ∈ r.C) (hg : g ∈ groups) :
    Restriction.IsRestricted ⟨r.OP, r.C ++ [c], r.Show, r.ShowC⟩ groups =
        r.IsRestricted groups ∧
      r.IsRestricted (groups ++ [g]) = r.IsRestricted groups := by
  constructor
  · exact isRestricted_congr_ids r.OP (r.C ++ [c]) r.C r.Show r.Show r.ShowC r.ShowC
      groups groups
      (fun i => by
        simp only [List.map_append, List.map_cons, List.map_nil, List.mem_append,
          List.mem_singleton, List.not_mem_nil, or_false, List.mem_cons]
        constructor
        · rintro (h | h)
          · exact h
          · rw [h]; exact List.mem_map_of_mem RestrictionC.Id hc
        · exact Or.inl)
      (fun i => Iff.rfl)
  · exact isRestricted_congr_ids r.OP r.C r.C r.Show r.Show r.ShowC r.ShowC
      (groups ++ [g]) groups
      (fun i => Iff.rfl)
      (fun i => by
        simp only [List.map_append, List.map_cons, List.map_nil, List.mem_append,
          List.mem_singleton, List.not_mem_nil, or_false, List.mem_cons]
        constructor
        · rintro (h | h)
          · exact h
          · rw [h]; exact List.mem_map_of_mem CourseGroup.Id hg
        · exact Or.inl)

/-- Claim C8 witness: duplicating the sole condition and the sole learner group
of an "&" rule leaves both verdicts unchanged. -/
theorem duplicates_inert_witness :
    (Restriction.IsRestricted
        ⟨"&", [⟨"group", 1, "", 0⟩] ++ [⟨"group", 1, "", 0⟩], false, []⟩
        [⟨1, "", ""⟩] =
      Restriction.IsRestricted ⟨"&", [⟨"group", 1, "", 0⟩], false, []⟩
        [⟨1, "", ""⟩]) ∧
    (Restriction.IsRestricted ⟨"&", [⟨"group", 1, "", 0⟩], false, []⟩
        ([⟨1, "", ""⟩] ++ [⟨1, "", ""⟩]) =
      Restriction.IsRestricted ⟨"&", [⟨"group", 1, "", 0⟩], false, []⟩
        [⟨1, "", ""⟩]) :=
  duplicates_inert ⟨"&", [⟨"group", 1, "", 0⟩], false, []⟩ [⟨1, "", ""⟩]
    ⟨"group", 1, "", 0⟩ ⟨1, "", ""⟩ (by decide) (by decide)

/-- Claim C9: the verdict does not depend on the visibility fields: changing
the rule's `Show` boolean or its `ShowC` list arbitrarily, and changing the
`D` and `T` fields of any condition while keeping each condition's `Typ` and
`Id`, leaves the verdict unchanged — it is a function only of the operator,
the conditions' `Typ` and `Id` fields, and the learner's group ids. -/
theorem verdict_ignores_visibility_fields (op : String) (C C' : List RestrictionC)
    (s s' : Bool) (sc sc' : List Bool) (groups : List CourseGroup)
    (h : C.map (fun c => (c.Typ, c.Id)) = C'.map (fun c => (c.Typ, c.Id))) :
    Restriction.IsRestricted ⟨op, C, s, sc⟩ groups =
      Restriction.IsRestricted ⟨op, C', s', sc'⟩ groups := by
  have hid : C.map RestrictionC.Id = C'.map RestrictionC.Id := by
    have h2 := congrArg (List.map Prod.snd) h
    simpa [List.map_map, Function.comp] using h2
  exact isRestricted_congr_ids op C C' s s' sc sc' groups groups
    (fun i => by rw [hid]) (fun i => Iff.rfl)

/-- Claim C9 witness: flipping `Show`, replacing `ShowC` and changing a
condition's `D` and `T` fields leaves the verdict unchanged. -/
theorem verdict_ignores_visibility_fields_witness :
    Restriction.IsRestricted ⟨"&", [⟨"group", 2, "", 0⟩], false, []⟩ [⟨2, "", ""⟩] =
      Restriction.IsRestricted ⟨"&", [⟨"group", 2, ">=", 1541682000⟩], true,
        [true, false]⟩ [⟨2, "", ""⟩] :=
  verdict_ignores_visibility_fields "&" [⟨"group", 2, "", 0⟩]
    [⟨"group", 2, ">=", 1541682000⟩] false true [] [true, false] [⟨2, "", ""⟩]
    (by decide)

/-- Claim C10: the "!&" and "!|" branches implement extensionally equal
functions: for every conditions list, visibility fields and learner-group list
the two operators yield the same verdict. -/
theorem notAnd_eq_notOr (C : List RestrictionC) (s : Bool) (sc : List Bool)
    (groups : List CourseGroup) :
    Restriction.IsRestricted ⟨"!&", C, s, sc⟩ groups =
      Restriction.IsRestricted ⟨"!|", C, s, sc⟩ groups := by
  simp [Restriction.IsRestricted]
